import Mathlib

/-! Binding protocol of the AXI recording sockets (`axi/scv/axi_rec_sockets.h`).

The two recording sockets `axi_rec_initiator_socket` and `axi_rec_target_socket`
own a `recorder` (the Observer) and splice it into the connections they make.
The development below embeds the `bind` overloads, `get_base_port` and
`operator->` of the two classes and states which connections they make and
which path a call takes afterwards.

* Objects are represented by their identity; the recording socket `k` owns
  the recorder `recorder k` with the ports `fw_port k` and `bw_port k`.
  Forward and backward interface types are not told apart in the identities.
* A network state is the ordered list of the connections made so far. The
  binding primitives of the host library (`sc_port`, `sc_export`) append to
  it; an export rejects a second bind and cannot be used as an interface
  before it holds one, so a `bind` overload either returns the extended
  network or is rejected.
* The recorder class itself is not part of `axi_rec_sockets.h`; what it does
  with a call is modelled from the specification (`call`).
-/

namespace scv4axi

/-! ## Object identities -/

/-- An object implementing a transport interface: the `recorder` member of the
recording socket with identity `k`, or any other implementation. The recorder
implements both the forward and the backward interface. -/
inductive sc_interface where
  | recorder (k : Nat)
  | impl (k : Nat)
  deriving DecidableEq

/-- A port object. `sock k` is the originating socket `k` itself seen as its
base-class port, `m_port k` the member `m_port` of the receiving socket `k`,
`fw_port k` and `bw_port k` the members `recorder.fw_port` and
`recorder.bw_port` of the recording socket `k`, `other k` any other port. -/
inductive sc_port where
  | sock (k : Nat)
  | m_port (k : Nat)
  | fw_port (k : Nat)
  | bw_port (k : Nat)
  | other (k : Nat)
  deriving DecidableEq

/-- An export object. `sock k` is the receiving socket `k` itself seen as its
base-class export, `m_export k` the member `m_export` of the originating
socket `k`, `other k` any other export (a plain export of the host library). -/
inductive sc_export where
  | sock (k : Nat)
  | m_export (k : Nat)
  | other (k : Nat)
  deriving DecidableEq

/-- One connection made by a binding primitive: a port bound to an interface,
a port bound to a parent port, or an export bound to an interface. -/
inductive Conn where
  | port_if (p : sc_port) (i : sc_interface)
  | port_port (p : sc_port) (q : sc_port)
  | export_if (e : sc_export) (i : sc_interface)
  deriving DecidableEq

/-- The network state: every connection made so far, oldest first. -/
abbrev Net := List Conn

/-- The two rejections of the host library's export: binding an export that
already holds an interface, and using an export that holds none as an
interface. -/
inductive BindError where
  | export_already_bound
  | export_has_no_interface
  deriving DecidableEq

/-- One entry of a port's binding list: an interface or a parent port. -/
inductive bind_elem where
  | iface (i : sc_interface)
  | parent (p : sc_port)
  deriving DecidableEq

/-! ## Binding primitives of the host library

`sc_port` and `sc_export` belong to the simulation library the sockets are
built on, not to this repository.  Their binding behaviour is taken as
follows: a port accumulates its bindings in order; an export holds at most one
interface and rejects a second bind; converting an export to an interface
yields the interface it holds and is rejected when it holds none. -/

/-- The interface an export holds (`m_interface_p`), if any. -/
def sc_export.get_interface (e : sc_export) (n : Net) : Option sc_interface :=
  n.findSome? (fun c =>
    match c with
    | Conn.export_if e1 i => if e1 = e then some i else none
    | _ => none)

/-- The binding list of a port, in the order the bindings were made. -/
def sc_port.bind_info (p : sc_port) (n : Net) : List bind_elem :=
  n.filterMap (fun c =>
    match c with
    | Conn.port_if q i => if q = p then some (bind_elem.iface i) else none
    | Conn.port_port q r => if q = p then some (bind_elem.parent r) else none
    | Conn.export_if _ _ => none)

/-- The call `p(i)` of a port on an interface: `sc_port::bind(IF&)`. -/
def sc_port.bind (p : sc_port) (i : sc_interface) (n : Net) : Net :=
  n ++ [Conn.port_if p i]

/-- The call `p(q)` of a port on a port: `sc_port::bind(sc_port_b&)`. -/
def sc_port.bind_port (p q : sc_port) (n : Net) : Net :=
  n ++ [Conn.port_port p q]

/-- The stock `sc_export::bind(IF&)`. -/
def sc_export.bind (e : sc_export) (i : sc_interface) (n : Net) : Except BindError Net :=
  match e.get_interface n with
  | some _ => Except.error BindError.export_already_bound
  | none => Except.ok (n ++ [Conn.export_if e i])

/-- The conversion of an export to the interface it holds (`operator IF&`),
used whenever an export is passed where an interface is expected. -/
def sc_export.to_interface (e : sc_export) (n : Net) : Except BindError sc_interface :=
  match e.get_interface n with
  | some i => Except.ok i
  | none => Except.error BindError.export_has_no_interface

/-! ## Socket base classes -/

/-- A receiving endpoint as the binding code sees it
(`tlm_base_target_socket_b&`): the results of its three virtual accessors.
`get_base_interface` may depend on the connections made so far. -/
structure tlm_base_target_socket_b where
  get_base_port : sc_port
  get_base_interface : Net → Except BindError sc_interface
  get_base_export : sc_export

/-- An originating endpoint as the binding code sees it
(`tlm_base_initiator_socket_b&`): the results of its three virtual accessors. -/
structure tlm_base_initiator_socket_b where
  get_base_port : sc_port
  get_base_interface : Net → Except BindError sc_interface
  get_base_export : sc_export

/-! ## `axi_rec_initiator_socket` -/

/-- The originating recording socket, identified by `id`. -/
structure axi_rec_initiator_socket where
  id : Nat
  deriving DecidableEq

namespace axi_rec_initiator_socket

/-- The member `recorder`. -/
def recorder (W : axi_rec_initiator_socket) : sc_interface := sc_interface.recorder W.id

/-- The member `recorder.fw_port`. -/
def recorder_fw_port (W : axi_rec_initiator_socket) : sc_port := sc_port.fw_port W.id

/-- The member `recorder.bw_port`. -/
def recorder_bw_port (W : axi_rec_initiator_socket) : sc_port := sc_port.bw_port W.id

/-- Inherited accessor: the socket itself as a port. -/
def get_base_port (W : axi_rec_initiator_socket) : sc_port := sc_port.sock W.id

/-- Inherited accessor: the member `m_export`. -/
def get_base_export (W : axi_rec_initiator_socket) : sc_export := sc_export.m_export W.id

/-- Inherited accessor: `m_export` converted to the interface it holds. -/
def get_base_interface (W : axi_rec_initiator_socket) (n : Net) : Except BindError sc_interface :=
  sc_export.to_interface W.get_base_export n

/-- The overload `bind(base_target_socket_type& s)`. -/
def bind_base_target_socket_type (W : axi_rec_initiator_socket) (s : tlm_base_target_socket_b)
    (n : Net) : Except BindError Net := do
  -- (this->get_base_port())(recorder);
  let n1 := sc_port.bind W.get_base_port W.recorder n
  -- recorder.fw_port(s.get_base_interface());
  let fi ← s.get_base_interface n1
  let n2 := sc_port.bind W.recorder_fw_port fi n1
  -- (s.get_base_port())(recorder);
  let n3 := sc_port.bind s.get_base_port W.recorder n2
  -- recorder.bw_port(this->get_base_interface());
  let bi ← W.get_base_interface n3
  pure (sc_port.bind W.recorder_bw_port bi n3)

/-- The overload `bind(base_type& s)` (hierarchical bind). -/
def bind_base_type (W : axi_rec_initiator_socket) (s : tlm_base_initiator_socket_b)
    (n : Net) : Except BindError Net := do
  -- (this->get_base_port())(recorder);
  let n1 := sc_port.bind W.get_base_port W.recorder n
  -- recorder.fw_port(s.get_base_port());
  let n2 := sc_port.bind_port W.recorder_fw_port s.get_base_port n1
  -- (s.get_base_export())(recorder);
  let n3 ← sc_export.bind s.get_base_export W.recorder n2
  -- recorder.bw_port(this->get_base_export()); the export is converted to its interface
  let bi ← sc_export.to_interface W.get_base_export n3
  pure (sc_port.bind W.recorder_bw_port bi n3)

/-- The overload `bind(bw_interface_type& ifs)`. -/
def bind_bw_interface_type (W : axi_rec_initiator_socket) (ifs : sc_interface)
    (n : Net) : Except BindError Net :=
  -- (this->get_base_export())(ifs);
  sc_export.bind W.get_base_export ifs n

/-- The socket seen through its base class. -/
def to_base (W : axi_rec_initiator_socket) : tlm_base_initiator_socket_b :=
  ⟨W.get_base_port, W.get_base_interface, W.get_base_export⟩

end axi_rec_initiator_socket

/-! ## `axi_rec_target_socket` -/

/-- The receiving recording socket, identified by `id`. The inherited virtual
accessor `get_base_export` returns the socket itself unless a derived class
overrides it; `base_export = none` is the inherited behaviour and
`base_export = some k` an override returning the plain export `other k`. -/
structure axi_rec_target_socket where
  id : Nat
  base_export : Option Nat
  deriving DecidableEq

namespace axi_rec_target_socket

/-- The member `recorder`. -/
def recorder (W : axi_rec_target_socket) : sc_interface := sc_interface.recorder W.id

/-- The member `recorder.fw_port`. -/
def recorder_fw_port (W : axi_rec_target_socket) : sc_port := sc_port.fw_port W.id

/-- The member `recorder.bw_port`. -/
def recorder_bw_port (W : axi_rec_target_socket) : sc_port := sc_port.bw_port W.id

/-- The inherited member `m_port`. -/
def m_port (W : axi_rec_target_socket) : sc_port := sc_port.m_port W.id

/-- The socket itself as an export (`this` converted to `export_type*`). -/
def this_export (W : axi_rec_target_socket) : sc_export := sc_export.sock W.id

/-- The virtual accessor `get_base_export()`. -/
def get_base_export (W : axi_rec_target_socket) : sc_export :=
  match W.base_export with
  | none => W.this_export
  | some k => sc_export.other k

/-- The override `get_base_port()` (non-const). -/
def get_base_port (W : axi_rec_target_socket) : sc_port := W.recorder_bw_port

/-- The override `get_base_port() const`. -/
def get_base_port_const (W : axi_rec_target_socket) : sc_port := W.recorder_bw_port

/-- The dereference `operator->()`, which returns `&recorder`. -/
def operator_arrow (W : axi_rec_target_socket) : sc_interface := W.recorder

/-- Inherited accessor `get_base_interface()`: the socket itself converted to
the interface its export holds. -/
def get_base_interface (W : axi_rec_target_socket) (n : Net) : Except BindError sc_interface :=
  sc_export.to_interface W.this_export n

/-- The overload `bind(fw_interface_type& ifs)`. -/
def bind_fw_interface_type (W : axi_rec_target_socket) (ifs : sc_interface)
    (n : Net) : Except BindError Net :=
  -- export_type* exp = &this->get_base_export();
  let exp := W.get_base_export
  -- if(this == exp)
  if W.this_export = exp then do
    -- export_type::bind(recorder); (non-virtual call)
    let n1 ← sc_export.bind W.this_export W.recorder n
    -- recorder.fw_port(ifs);
    let n2 := sc_port.bind W.recorder_fw_port ifs n1
    -- recorder.bw_port(this->m_port);
    pure (sc_port.bind_port W.recorder_bw_port W.m_port n2)
  else
    -- exp->bind(ifs);
    sc_export.bind exp ifs n

/-- The call `e(ifs)` of an export on an interface from inside the socket:
`operator()` calls the virtual `bind`, which is the socket's own overload
when `e` is the socket itself and the stock one for another export. -/
def export_call (W : axi_rec_target_socket) (e : sc_export) (ifs : sc_interface)
    (n : Net) : Except BindError Net :=
  if e = W.this_export then W.bind_fw_interface_type ifs n else sc_export.bind e ifs n

/-- The overload `bind(base_type& s)` (hierarchical bind). The peer's export is
passed where an interface is expected, hence converted first. -/
def bind_base_type (W : axi_rec_target_socket) (s : tlm_base_target_socket_b)
    (n : Net) : Except BindError Net := do
  -- (this->get_base_export())(s.get_base_export());
  let ifs ← sc_export.to_interface s.get_base_export n
  let n1 ← W.export_call W.get_base_export ifs n
  -- (s.get_base_port())(recorder);
  pure (sc_port.bind s.get_base_port W.recorder n1)

/-- The socket seen through its base class. -/
def to_base (W : axi_rec_target_socket) : tlm_base_target_socket_b :=
  ⟨W.get_base_port, W.get_base_interface, W.get_base_export⟩

end axi_rec_target_socket

/-! ## Calls through a bound channel -/

/-- The interfaces a port reaches once binding is complete: its binding list
in order, a parent port standing for the interfaces the parent reaches (a
parent without bindings contributes none). The first argument bounds the
length of parent chains followed. -/
def sc_port.interfaces (n : Net) : Nat → sc_port → List sc_interface
  | 0, _ => []
  | d + 1, p => (p.bind_info n).flatMap (fun b =>
      match b with
      | bind_elem.iface i => [i]
      | bind_elem.parent q => sc_port.interfaces n d q)

/-- The interface a call through the port goes to (`operator->` of the port):
the first interface the port reaches. -/
def sc_port.operator_arrow (n : Net) (d : Nat) (p : sc_port) : Option sc_interface :=
  (sc_port.interfaces n d p).head?

/-- Direction of a call: forward (request) or backward (response). -/
inductive Dir where
  | fw
  | bw
  deriving DecidableEq

/-- A recorded event: which recorder recorded what in which direction. -/
structure Event (α : Type) where
  observer : Nat
  dir : Dir
  payload : α
  deriving DecidableEq

/-- A call arriving at an interface implementation that is not a recorder. -/
structure Arrival (α : Type) where
  impl : Nat
  dir : Dir
  payload : α
  deriving DecidableEq

/-- What one call caused: the events recorded and the arrivals, in order. -/
structure CallLog (α : Type) where
  recorded : List (Event α)
  arrived : List (Arrival α)
  deriving DecidableEq

/-- Modelled from the spec: the Observer class `axi_recorder` (axi_recorder.h)
is not among the sources. A call with payload `x` made on interface `i`: a
recorder records it once and then forwards it once, unchanged, through its
forward port (forward call) or its backward port (backward call); any other
implementation receives it. The result is `none` when a recorder's port
reaches no interface, or when the hop bound `fuel` is exhausted. -/
def call {α : Type} (n : Net) (dir : Dir) (x : α) :
    Nat → sc_interface → CallLog α → Option (CallLog α)
  | 0, _, _ => none
  | _ + 1, sc_interface.impl k, log => some ⟨log.recorded, log.arrived ++ [⟨k, dir, x⟩]⟩
  | fuel + 1, sc_interface.recorder k, log =>
      let p := match dir with
        | Dir.fw => sc_port.fw_port k
        | Dir.bw => sc_port.bw_port k
      match sc_port.operator_arrow n fuel p with
      | none => none
      | some i => call n dir x fuel i ⟨log.recorded ++ [⟨k, dir, x⟩], log.arrived⟩

/-- A forward call issued by the owner of an originating socket: it goes
through the socket's own port. -/
def axi_rec_initiator_socket.fw_call {α : Type} (M : axi_rec_initiator_socket)
    (n : Net) (x : α) (fuel : Nat) : Option (CallLog α) :=
  match sc_port.operator_arrow n fuel M.get_base_port with
  | none => none
  | some i => call n Dir.fw x fuel i ⟨[], []⟩

/-- A backward call issued by the owner of a receiving socket through the
socket's `operator->`. -/
def axi_rec_target_socket.bw_call {α : Type} (S : axi_rec_target_socket)
    (n : Net) (x : α) (fuel : Nat) : Option (CallLog α) :=
  call n Dir.bw x fuel S.operator_arrow ⟨[], []⟩

/-- The leaf channel of the scenarios: starting from no connection, the
receiving socket `S` is bound to its owner's forward handler `impl h`, the
originating socket `M` to its owner's backward interface `impl b`, and then
`M.bind(S)`. -/
def leaf_channel (M : axi_rec_initiator_socket) (S : axi_rec_target_socket)
    (h b : Nat) : Except BindError Net := do
  let n1 ← S.bind_fw_interface_type (sc_interface.impl h) []
  let n2 ← M.bind_bw_interface_type (sc_interface.impl b) n1
  M.bind_base_target_socket_type S.to_base n2

/-- Forward payload of the scenario. -/
structure Request where
  addr : Nat
  len : Nat
  deriving DecidableEq

/-- Backward payload of the scenario. -/
inductive Response where
  | OK
  | ERROR
  deriving DecidableEq

/-! ## Sequences of bind operations -/

/-- A receiving endpoint a recording socket can be bound to: a recording
socket, or a plain one with its own port `other k` and export `other k`. -/
inductive target_peer where
  | rec_socket (S : axi_rec_target_socket)
  | plain (k : Nat)
  deriving DecidableEq

/-- The peer seen through its base class. -/
def target_peer.to_base : target_peer → tlm_base_target_socket_b
  | target_peer.rec_socket S => S.to_base
  | target_peer.plain k =>
      ⟨sc_port.other k, sc_export.to_interface (sc_export.other k), sc_export.other k⟩

/-- An originating endpoint a recording socket can be bound to: a recording
socket, or a plain one with its own port `other k` and export `other k`. -/
inductive initiator_peer where
  | rec_socket (M : axi_rec_initiator_socket)
  | plain (k : Nat)
  deriving DecidableEq

/-- The peer seen through its base class. -/
def initiator_peer.to_base : initiator_peer → tlm_base_initiator_socket_b
  | initiator_peer.rec_socket M => M.to_base
  | initiator_peer.plain k =>
      ⟨sc_port.other k, sc_export.to_interface (sc_export.other k), sc_export.other k⟩

/-- One call of a `bind` overload of one of the two recording sockets. -/
inductive BindOp where
  | initiator_bind_target (M : axi_rec_initiator_socket) (s : target_peer)
  | initiator_bind_initiator (M : axi_rec_initiator_socket) (s : initiator_peer)
  | initiator_bind_if (M : axi_rec_initiator_socket) (ifs : sc_interface)
  | target_bind_target (W : axi_rec_target_socket) (s : target_peer)
  | target_bind_if (W : axi_rec_target_socket) (ifs : sc_interface)
  deriving DecidableEq

/-- The effect of one bind call. -/
def BindOp.apply : BindOp → Net → Except BindError Net
  | BindOp.initiator_bind_target M s, n => M.bind_base_target_socket_type s.to_base n
  | BindOp.initiator_bind_initiator M s, n => M.bind_base_type s.to_base n
  | BindOp.initiator_bind_if M ifs, n => M.bind_bw_interface_type ifs n
  | BindOp.target_bind_target W s, n => W.bind_base_type s.to_base n
  | BindOp.target_bind_if W ifs, n => W.bind_fw_interface_type ifs n

/-- A sequence of bind calls, stopping at the first rejected one. -/
def run : List BindOp → Net → Except BindError Net
  | [], n => Except.ok n
  | op :: ops, n =>
      match op.apply n with
      | Except.error e => Except.error e
      | Except.ok n1 => run ops n1

/-- The ports a connection mentions. -/
def Conn.ports : Conn → List sc_port
  | Conn.port_if p _ => [p]
  | Conn.port_port p q => [p, q]
  | Conn.export_if _ _ => []

/-- The port a connection starts from, if it starts from a port. -/
def Conn.source_port : Conn → Option sc_port
  | Conn.port_if p _ => some p
  | Conn.port_port p _ => some p
  | Conn.export_if _ _ => none

/-! ## Lemmas on the primitives -/

theorem get_interface_append (e : sc_export) (n m : Net) :
    e.get_interface (n ++ m) = (e.get_interface n).or (e.get_interface m) := by
  simp [sc_export.get_interface, List.findSome?_append]

theorem get_interface_port_bind (e : sc_export) (p : sc_port) (i : sc_interface) (n : Net) :
    e.get_interface (sc_port.bind p i n) = e.get_interface n := by
  rw [sc_port.bind, get_interface_append]
  cases h : e.get_interface n <;> simp [sc_export.get_interface]

theorem get_interface_bind_port (e : sc_export) (p q : sc_port) (n : Net) :
    e.get_interface (sc_port.bind_port p q n) = e.get_interface n := by
  rw [sc_port.bind_port, get_interface_append]
  cases h : e.get_interface n <;> simp [sc_export.get_interface]

theorem bind_info_append (p : sc_port) (n m : Net) :
    p.bind_info (n ++ m) = p.bind_info n ++ p.bind_info m := by
  simp [sc_port.bind_info, List.filterMap_append]

theorem get_interface_export_bind (e e1 : sc_export) (i : sc_interface) (n : Net) :
    e.get_interface (n ++ [Conn.export_if e1 i])
      = (e.get_interface n).or (if e1 = e then some i else none) := by
  rw [get_interface_append]
  congr 1
  by_cases h : e1 = e <;> simp [sc_export.get_interface, List.findSome?, h]

theorem bind_info_port_bind (p q : sc_port) (i : sc_interface) (n : Net) :
    p.bind_info (sc_port.bind q i n)
      = p.bind_info n ++ (if q = p then [bind_elem.iface i] else []) := by
  rw [sc_port.bind, bind_info_append]
  by_cases h : q = p <;> simp [sc_port.bind_info, h]

theorem bind_info_bind_port (p q r : sc_port) (n : Net) :
    p.bind_info (sc_port.bind_port q r n)
      = p.bind_info n ++ (if q = p then [bind_elem.parent r] else []) := by
  rw [sc_port.bind_port, bind_info_append]
  by_cases h : q = p <;> simp [sc_port.bind_info, h]

theorem bind_info_export_bind (p : sc_port) (e : sc_export) (i : sc_interface) (n : Net) :
    p.bind_info (n ++ [Conn.export_if e i]) = p.bind_info n := by
  rw [bind_info_append]
  simp [sc_port.bind_info]

theorem sc_export_bind_ok (e : sc_export) (i : sc_interface) (n : Net)
    (h : e.get_interface n = none) :
    sc_export.bind e i n = Except.ok (n ++ [Conn.export_if e i]) := by
  simp [sc_export.bind, h]

theorem sc_export_bind_inv (e : sc_export) (i : sc_interface) (n m : Net)
    (h : sc_export.bind e i n = Except.ok m) :
    e.get_interface n = none ∧ m = n ++ [Conn.export_if e i] := by
  unfold sc_export.bind at h
  cases hg : e.get_interface n with
  | none => simp [hg] at h; exact ⟨rfl, h.symm⟩
  | some x => simp [hg] at h

theorem to_interface_ok (e : sc_export) (i : sc_interface) (n : Net)
    (h : e.get_interface n = some i) : sc_export.to_interface e n = Except.ok i := by
  simp [sc_export.to_interface, h]

theorem to_interface_inv (e : sc_export) (i : sc_interface) (n : Net)
    (h : sc_export.to_interface e n = Except.ok i) : e.get_interface n = some i := by
  unfold sc_export.to_interface at h
  cases hg : e.get_interface n with
  | none => simp [hg] at h
  | some x => simp [hg] at h; simp [h]

/-! ## The leaf channel -/

theorem leaf_channel_net (M : axi_rec_initiator_socket) (S : axi_rec_target_socket)
    (h b : Nat) (hstock : S.base_export = none) :
    leaf_channel M S h b = Except.ok
      [Conn.export_if S.this_export S.recorder,
       Conn.port_if S.recorder_fw_port (sc_interface.impl h),
       Conn.port_port S.recorder_bw_port S.m_port,
       Conn.export_if M.get_base_export (sc_interface.impl b),
       Conn.port_if M.get_base_port M.recorder,
       Conn.port_if M.recorder_fw_port S.recorder,
       Conn.port_if S.recorder_bw_port M.recorder,
       Conn.port_if M.recorder_bw_port (sc_interface.impl b)] := by
  obtain ⟨sid, sb⟩ := S
  obtain ⟨mid⟩ := M
  simp only at hstock
  subst hstock
  simp [leaf_channel, axi_rec_target_socket.bind_fw_interface_type,
    axi_rec_target_socket.get_base_export, axi_rec_target_socket.this_export,
    axi_rec_target_socket.recorder, axi_rec_target_socket.recorder_fw_port,
    axi_rec_target_socket.recorder_bw_port, axi_rec_target_socket.m_port,
    axi_rec_target_socket.to_base, axi_rec_target_socket.get_base_port,
    axi_rec_target_socket.get_base_interface,
    axi_rec_initiator_socket.bind_bw_interface_type,
    axi_rec_initiator_socket.bind_base_target_socket_type,
    axi_rec_initiator_socket.get_base_export, axi_rec_initiator_socket.get_base_port,
    axi_rec_initiator_socket.get_base_interface, axi_rec_initiator_socket.recorder,
    axi_rec_initiator_socket.recorder_fw_port, axi_rec_initiator_socket.recorder_bw_port,
    sc_export.bind, sc_export.to_interface, sc_export.get_interface, sc_port.bind,
    sc_port.bind_port, bind, Except.bind, pure, Except.pure, List.findSome?]

theorem leaf_channel_fw_call {α : Type} (M : axi_rec_initiator_socket)
    (S : axi_rec_target_socket) (h b : Nat) (x : α) (n : Net)
    (hstock : S.base_export = none) (hne : M.id ≠ S.id)
    (hn : leaf_channel M S h b = Except.ok n) (fuel : Nat) :
    M.fw_call n x fuel = (if 3 ≤ fuel then
      some ⟨[⟨M.id, Dir.fw, x⟩, ⟨S.id, Dir.fw, x⟩], [⟨h, Dir.fw, x⟩]⟩ else none) := by
  rw [leaf_channel_net M S h b hstock] at hn
  injection hn with hn
  subst hn
  have hne2 : ¬ S.id = M.id := fun e => hne e.symm
  match fuel with
  | 0 => simp [axi_rec_initiator_socket.fw_call, sc_port.operator_arrow, sc_port.interfaces]
  | 1 =>
    simp [axi_rec_initiator_socket.fw_call, sc_port.operator_arrow, sc_port.interfaces,
      sc_port.bind_info, call, axi_rec_target_socket.recorder,
      axi_rec_target_socket.recorder_fw_port, axi_rec_target_socket.recorder_bw_port,
      axi_rec_target_socket.m_port, axi_rec_initiator_socket.get_base_port,
      axi_rec_initiator_socket.recorder, axi_rec_initiator_socket.recorder_fw_port,
      axi_rec_initiator_socket.recorder_bw_port, hne, hne2]
  | 2 =>
    simp [axi_rec_initiator_socket.fw_call, sc_port.operator_arrow, sc_port.interfaces,
      sc_port.bind_info, call, axi_rec_target_socket.recorder,
      axi_rec_target_socket.recorder_fw_port, axi_rec_target_socket.recorder_bw_port,
      axi_rec_target_socket.m_port, axi_rec_initiator_socket.get_base_port,
      axi_rec_initiator_socket.recorder, axi_rec_initiator_socket.recorder_fw_port,
      axi_rec_initiator_socket.recorder_bw_port, hne, hne2]
  | j + 3 =>
    simp [axi_rec_initiator_socket.fw_call, sc_port.operator_arrow, sc_port.interfaces,
      sc_port.bind_info, call, axi_rec_target_socket.recorder,
      axi_rec_target_socket.recorder_fw_port, axi_rec_target_socket.recorder_bw_port,
      axi_rec_target_socket.m_port, axi_rec_initiator_socket.get_base_port,
      axi_rec_initiator_socket.recorder, axi_rec_initiator_socket.recorder_fw_port,
      axi_rec_initiator_socket.recorder_bw_port, hne, hne2]

theorem leaf_channel_bw_call {α : Type} (M : axi_rec_initiator_socket)
    (S : axi_rec_target_socket) (h b : Nat) (x : α) (n : Net)
    (hstock : S.base_export = none) (hne : M.id ≠ S.id)
    (hn : leaf_channel M S h b = Except.ok n) (fuel : Nat) :
    S.bw_call n x fuel = (if 3 ≤ fuel then
      some ⟨[⟨S.id, Dir.bw, x⟩, ⟨M.id, Dir.bw, x⟩], [⟨b, Dir.bw, x⟩]⟩ else none) := by
  rw [leaf_channel_net M S h b hstock] at hn
  injection hn with hn
  subst hn
  have hne2 : ¬ S.id = M.id := fun e => hne e.symm
  match fuel with
  | 0 => simp [axi_rec_target_socket.bw_call, call]
  | 1 =>
    simp [axi_rec_target_socket.bw_call, axi_rec_target_socket.operator_arrow,
      sc_port.operator_arrow, sc_port.interfaces,
      sc_port.bind_info, call, axi_rec_target_socket.recorder,
      axi_rec_target_socket.recorder_fw_port, axi_rec_target_socket.recorder_bw_port,
      axi_rec_target_socket.m_port, axi_rec_initiator_socket.get_base_port,
      axi_rec_initiator_socket.recorder, axi_rec_initiator_socket.recorder_fw_port,
      axi_rec_initiator_socket.recorder_bw_port, hne, hne2]
  | 2 =>
    simp [axi_rec_target_socket.bw_call, axi_rec_target_socket.operator_arrow,
      sc_port.operator_arrow, sc_port.interfaces,
      sc_port.bind_info, call, axi_rec_target_socket.recorder,
      axi_rec_target_socket.recorder_fw_port, axi_rec_target_socket.recorder_bw_port,
      axi_rec_target_socket.m_port, axi_rec_initiator_socket.get_base_port,
      axi_rec_initiator_socket.recorder, axi_rec_initiator_socket.recorder_fw_port,
      axi_rec_initiator_socket.recorder_bw_port, hne, hne2]
  | j + 3 =>
    simp [axi_rec_target_socket.bw_call, axi_rec_target_socket.operator_arrow,
      sc_port.operator_arrow, sc_port.interfaces,
      sc_port.bind_info, call, axi_rec_target_socket.recorder,
      axi_rec_target_socket.recorder_fw_port, axi_rec_target_socket.recorder_bw_port,
      axi_rec_target_socket.m_port, axi_rec_initiator_socket.get_base_port,
      axi_rec_initiator_socket.recorder, axi_rec_initiator_socket.recorder_fw_port,
      axi_rec_initiator_socket.recorder_bw_port, hne, hne2]

/-! ## What each bind overload appends -/

theorem to_interface_port_bind (e : sc_export) (p : sc_port) (i : sc_interface) (n : Net) :
    sc_export.to_interface e (sc_port.bind p i n) = sc_export.to_interface e n := by
  simp [sc_export.to_interface, get_interface_port_bind]

theorem initiator_bind_target_inv (W : axi_rec_initiator_socket)
    (s : tlm_base_target_socket_b) (n m : Net)
    (h : W.bind_base_target_socket_type s n = Except.ok m) :
    ∃ fi bi, s.get_base_interface (n ++ [Conn.port_if W.get_base_port W.recorder])
        = Except.ok fi
      ∧ W.get_base_interface n = Except.ok bi
      ∧ m = n ++ [Conn.port_if W.get_base_port W.recorder,
                  Conn.port_if W.recorder_fw_port fi,
                  Conn.port_if s.get_base_port W.recorder,
                  Conn.port_if W.recorder_bw_port bi] := by
  unfold axi_rec_initiator_socket.bind_base_target_socket_type at h
  simp only [bind, Except.bind, pure, Except.pure] at h
  split at h
  · cases h
  · rename_i fi hfi
    split at h
    · cases h
    · rename_i bi hbi
      injection h with h
      subst h
      refine ⟨fi, bi, hfi, ?_, by simp [sc_port.bind]⟩
      simpa [axi_rec_initiator_socket.get_base_interface, to_interface_port_bind] using hbi

theorem initiator_bind_target_ok (W : axi_rec_initiator_socket)
    (s : tlm_base_target_socket_b) (n : Net) (fi bi : sc_interface)
    (hs : s.get_base_interface (n ++ [Conn.port_if W.get_base_port W.recorder]) = Except.ok fi)
    (hw : W.get_base_interface n = Except.ok bi) :
    W.bind_base_target_socket_type s n = Except.ok (n ++
      [Conn.port_if W.get_base_port W.recorder,
       Conn.port_if W.recorder_fw_port fi,
       Conn.port_if s.get_base_port W.recorder,
       Conn.port_if W.recorder_bw_port bi]) := by
  have hw3 : W.get_base_interface (sc_port.bind s.get_base_port W.recorder
      (sc_port.bind W.recorder_fw_port fi (sc_port.bind W.get_base_port W.recorder n)))
      = Except.ok bi := by
    simpa [axi_rec_initiator_socket.get_base_interface, to_interface_port_bind] using hw
  have hs1 : s.get_base_interface (sc_port.bind W.get_base_port W.recorder n)
      = Except.ok fi := hs
  simp only [axi_rec_initiator_socket.bind_base_target_socket_type, hs1, hw3, bind,
    Except.bind, pure, Except.pure]
  simp [sc_port.bind]

theorem initiator_bind_hierarchical_inv (W : axi_rec_initiator_socket)
    (s : tlm_base_initiator_socket_b) (n m : Net)
    (h : W.bind_base_type s n = Except.ok m) :
    ∃ bi, s.get_base_export.get_interface n = none
      ∧ W.get_base_export.get_interface
          (n ++ [Conn.export_if s.get_base_export W.recorder]) = some bi
      ∧ m = n ++ [Conn.port_if W.get_base_port W.recorder,
                  Conn.port_port W.recorder_fw_port s.get_base_port,
                  Conn.export_if s.get_base_export W.recorder,
                  Conn.port_if W.recorder_bw_port bi] := by
  unfold axi_rec_initiator_socket.bind_base_type at h
  simp only [bind, Except.bind, pure, Except.pure] at h
  split at h
  · cases h
  · rename_i n3 h3
    obtain ⟨hfree, rfl⟩ := sc_export_bind_inv _ _ _ _ h3
    rw [get_interface_bind_port, get_interface_port_bind] at hfree
    split at h
    · cases h
    · rename_i bi hbi
      injection h with h
      subst h
      refine ⟨bi, hfree, ?_, by simp [sc_port.bind, sc_port.bind_port]⟩
      have hg := to_interface_inv _ _ _ hbi
      rw [get_interface_export_bind, get_interface_bind_port, get_interface_port_bind] at hg
      rw [get_interface_export_bind]
      exact hg

theorem initiator_bind_hierarchical_ok (W : axi_rec_initiator_socket)
    (s : tlm_base_initiator_socket_b) (n : Net) (bi : sc_interface)
    (hs : s.get_base_export.get_interface n = none)
    (hw : W.get_base_export.get_interface
        (n ++ [Conn.export_if s.get_base_export W.recorder]) = some bi) :
    W.bind_base_type s n = Except.ok (n ++
      [Conn.port_if W.get_base_port W.recorder,
       Conn.port_port W.recorder_fw_port s.get_base_port,
       Conn.export_if s.get_base_export W.recorder,
       Conn.port_if W.recorder_bw_port bi]) := by
  have hs2 : s.get_base_export.get_interface
      (sc_port.bind_port W.recorder_fw_port s.get_base_port
        (sc_port.bind W.get_base_port W.recorder n)) = none := by
    rw [get_interface_bind_port, get_interface_port_bind, hs]
  have hw3 : W.get_base_export.get_interface
      (sc_port.bind_port W.recorder_fw_port s.get_base_port
        (sc_port.bind W.get_base_port W.recorder n) ++
        [Conn.export_if s.get_base_export W.recorder]) = some bi := by
    rw [get_interface_export_bind, get_interface_bind_port, get_interface_port_bind]
    rw [get_interface_export_bind] at hw
    exact hw
  simp only [axi_rec_initiator_socket.bind_base_type, sc_export_bind_ok _ _ _ hs2,
    to_interface_ok _ _ _ hw3, bind, Except.bind, pure, Except.pure]
  simp [sc_port.bind, sc_port.bind_port]

theorem target_bind_interface_inv (W : axi_rec_target_socket) (ifs : sc_interface)
    (n m : Net) (h : W.bind_fw_interface_type ifs n = Except.ok m) :
    m = n ++ [Conn.export_if W.this_export W.recorder,
              Conn.port_if W.recorder_fw_port ifs,
              Conn.port_port W.recorder_bw_port W.m_port]
    ∨ m = n ++ [Conn.export_if W.get_base_export ifs] := by
  unfold axi_rec_target_socket.bind_fw_interface_type at h
  simp only [bind, Except.bind, pure, Except.pure] at h
  split at h
  · left
    split at h
    · cases h
    · rename_i n1 h1
      obtain ⟨_, rfl⟩ := sc_export_bind_inv _ _ _ _ h1
      injection h with h
      subst h
      simp [sc_port.bind, sc_port.bind_port]
  · right
    exact (sc_export_bind_inv _ _ _ _ h).2

theorem target_bind_interface_ok (W : axi_rec_target_socket) (ifs : sc_interface) (n : Net)
    (hthis : W.this_export = W.get_base_export)
    (hfree : W.this_export.get_interface n = none) :
    W.bind_fw_interface_type ifs n = Except.ok (n ++
      [Conn.export_if W.this_export W.recorder,
       Conn.port_if W.recorder_fw_port ifs,
       Conn.port_port W.recorder_bw_port W.m_port]) := by
  simp only [axi_rec_target_socket.bind_fw_interface_type, hthis, if_true]
  rw [← hthis, sc_export_bind_ok _ _ _ hfree]
  simp [bind, Except.bind, pure, Except.pure, sc_port.bind, sc_port.bind_port]

theorem target_bind_interface_inv_this (W : axi_rec_target_socket) (ifs : sc_interface)
    (n m : Net) (hthis : W.this_export = W.get_base_export)
    (h : W.bind_fw_interface_type ifs n = Except.ok m) :
    W.this_export.get_interface n = none
    ∧ m = n ++ [Conn.export_if W.this_export W.recorder,
                Conn.port_if W.recorder_fw_port ifs,
                Conn.port_port W.recorder_bw_port W.m_port] := by
  cases hfree : W.this_export.get_interface n with
  | none =>
    rw [target_bind_interface_ok W ifs n hthis hfree] at h
    injection h with h
    exact ⟨rfl, h.symm⟩
  | some x =>
    simp [axi_rec_target_socket.bind_fw_interface_type, ← hthis, sc_export.bind, hfree,
      bind, Except.bind] at h

theorem target_bind_hierarchical_inv (W : axi_rec_target_socket)
    (s : tlm_base_target_socket_b) (n m : Net)
    (h : W.bind_base_type s n = Except.ok m) :
    ∃ i e, m = n ++ [Conn.export_if W.this_export W.recorder,
                   Conn.port_if W.recorder_fw_port i,
                   Conn.port_port W.recorder_bw_port W.m_port,
                   Conn.port_if s.get_base_port W.recorder]
      ∨ m = n ++ [Conn.export_if e i, Conn.port_if s.get_base_port W.recorder] := by
  unfold axi_rec_target_socket.bind_base_type at h
  simp only [bind, Except.bind, pure, Except.pure] at h
  split at h
  · cases h
  · rename_i i hi
    split at h
    · cases h
    · rename_i n1 h1
      injection h with h
      subst h
      unfold axi_rec_target_socket.export_call at h1
      split at h1
      · rcases target_bind_interface_inv _ _ _ _ h1 with rfl | rfl
        · exact ⟨i, W.this_export, Or.inl (by simp [sc_port.bind])⟩
        · exact ⟨i, W.get_base_export, Or.inr (by simp [sc_port.bind])⟩
      · obtain ⟨_, rfl⟩ := sc_export_bind_inv _ _ _ _ h1
        exact ⟨i, W.get_base_export, Or.inr (by simp [sc_port.bind])⟩

theorem target_peer_port_not_m_port (s : target_peer) (k : Nat) :
    s.to_base.get_base_port ≠ sc_port.m_port k := by
  cases s <;> simp [target_peer.to_base, axi_rec_target_socket.to_base,
    axi_rec_target_socket.get_base_port, axi_rec_target_socket.recorder_bw_port]

theorem initiator_peer_port_not_m_port (s : initiator_peer) (k : Nat) :
    s.to_base.get_base_port ≠ sc_port.m_port k := by
  cases s <;> simp [initiator_peer.to_base, axi_rec_initiator_socket.to_base,
    axi_rec_initiator_socket.get_base_port]

theorem apply_appends (op : BindOp) (n m : Net) (h : op.apply n = Except.ok m) :
    ∃ l, m = n ++ l ∧ ∀ c, c ∈ l → ∀ k, sc_port.m_port k ∈ c.ports →
      c = Conn.port_port (sc_port.bw_port k) (sc_port.m_port k) := by
  cases op with
  | initiator_bind_target M s =>
    obtain ⟨fi, bi, _, _, rfl⟩ := initiator_bind_target_inv _ _ _ _ h
    refine ⟨_, rfl, ?_⟩
    intro c hc k hk
    have hp := target_peer_port_not_m_port s k
    simp only [List.mem_cons, List.mem_singleton, List.not_mem_nil, or_false] at hc
    rcases hc with rfl | rfl | rfl | rfl <;>
      simp [Conn.ports, axi_rec_initiator_socket.get_base_port,
        axi_rec_initiator_socket.recorder_fw_port,
        axi_rec_initiator_socket.recorder_bw_port] at hk
    exact absurd hk.symm hp
  | initiator_bind_initiator M s =>
    obtain ⟨bi, _, _, rfl⟩ := initiator_bind_hierarchical_inv _ _ _ _ h
    refine ⟨_, rfl, ?_⟩
    intro c hc k hk
    have hp := initiator_peer_port_not_m_port s k
    simp only [List.mem_cons, List.mem_singleton, List.not_mem_nil, or_false] at hc
    rcases hc with rfl | rfl | rfl | rfl <;>
      simp [Conn.ports, axi_rec_initiator_socket.get_base_port,
        axi_rec_initiator_socket.recorder_fw_port,
        axi_rec_initiator_socket.recorder_bw_port] at hk
    exact absurd hk.symm hp
  | initiator_bind_if M ifs =>
    obtain ⟨_, rfl⟩ := sc_export_bind_inv _ _ _ _ h
    refine ⟨_, rfl, ?_⟩
    intro c hc k hk
    simp only [List.mem_singleton] at hc
    subst hc
    simp [Conn.ports] at hk
  | target_bind_target W s =>
    obtain ⟨i, e, rfl | rfl⟩ := target_bind_hierarchical_inv _ _ _ _ h
    · refine ⟨_, rfl, ?_⟩
      intro c hc k hk
      have hp := target_peer_port_not_m_port s k
      simp only [List.mem_cons, List.mem_singleton, List.not_mem_nil, or_false] at hc
      rcases hc with rfl | rfl | rfl | rfl <;>
        simp [Conn.ports, axi_rec_target_socket.recorder_fw_port,
          axi_rec_target_socket.recorder_bw_port, axi_rec_target_socket.m_port] at hk
      · subst hk
        simp [axi_rec_target_socket.recorder_bw_port, axi_rec_target_socket.m_port]
      · exact absurd hk.symm hp
    · refine ⟨_, rfl, ?_⟩
      intro c hc k hk
      have hp := target_peer_port_not_m_port s k
      simp only [List.mem_cons, List.mem_singleton, List.not_mem_nil, or_false] at hc
      rcases hc with rfl | rfl <;> simp [Conn.ports] at hk
      exact absurd hk.symm hp
  | target_bind_if W ifs =>
    rcases target_bind_interface_inv _ _ _ _ h with rfl | rfl
    · refine ⟨_, rfl, ?_⟩
      intro c hc k hk
      simp only [List.mem_cons, List.mem_singleton, List.not_mem_nil, or_false] at hc
      rcases hc with rfl | rfl | rfl <;>
        simp [Conn.ports, axi_rec_target_socket.recorder_fw_port,
          axi_rec_target_socket.recorder_bw_port, axi_rec_target_socket.m_port] at hk
      subst hk
      simp [axi_rec_target_socket.recorder_bw_port, axi_rec_target_socket.m_port]
    · refine ⟨_, rfl, ?_⟩
      intro c hc k hk
      simp only [List.mem_singleton] at hc
      subst hc
      simp [Conn.ports] at hk

theorem run_keeps_m_port (ops : List BindOp) :
    ∀ n0 n : Net, run ops n0 = Except.ok n →
      (∀ c, c ∈ n0 → ∀ k, sc_port.m_port k ∈ c.ports →
        c = Conn.port_port (sc_port.bw_port k) (sc_port.m_port k)) →
      ∀ c, c ∈ n → ∀ k, sc_port.m_port k ∈ c.ports →
        c = Conn.port_port (sc_port.bw_port k) (sc_port.m_port k) := by
  induction ops with
  | nil =>
    intro n0 n h h0
    simp only [run] at h
    injection h with h
    subst h
    exact h0
  | cons op ops ih =>
    intro n0 n h h0
    simp only [run] at h
    split at h
    · cases h
    · rename_i n1 h1
      obtain ⟨l, rfl, hl⟩ := apply_appends op n0 n1 h1
      refine ih _ _ h ?_
      intro c hc
      rcases List.mem_append.mp hc with hc | hc
      · exact h0 c hc
      · exact hl c hc

theorem bind_info_nil_of_no_source (p : sc_port) (n : Net)
    (h : ∀ c, c ∈ n → c.source_port ≠ some p) : p.bind_info n = [] := by
  induction n with
  | nil => rfl
  | cons c n ih =>
    have hc := h c (List.mem_cons_self _ _)
    have hn := ih (fun d hd => h d (List.mem_cons_of_mem _ hd))
    unfold sc_port.bind_info at hn ⊢
    cases c with
    | port_if q i =>
      have hq : ¬ q = p := fun e => hc (by simp [Conn.source_port, e])
      simp [List.filterMap_cons, hq, hn]
    | port_port q r =>
      have hq : ¬ q = p := fun e => hc (by simp [Conn.source_port, e])
      simp [List.filterMap_cons, hq, hn]
    | export_if e i => simp [List.filterMap_cons, hn]

theorem run_leaf_then_initiator (M : axi_rec_initiator_socket) (S : axi_rec_target_socket)
    (h b : Nat) (hstock : S.base_export = none) :
    run [BindOp.target_bind_if S (sc_interface.impl h),
         BindOp.initiator_bind_if M (sc_interface.impl b),
         BindOp.initiator_bind_target M (target_peer.rec_socket S)] []
      = Except.ok
      [Conn.export_if S.this_export S.recorder,
       Conn.port_if S.recorder_fw_port (sc_interface.impl h),
       Conn.port_port S.recorder_bw_port S.m_port,
       Conn.export_if M.get_base_export (sc_interface.impl b),
       Conn.port_if M.get_base_port M.recorder,
       Conn.port_if M.recorder_fw_port S.recorder,
       Conn.port_if S.recorder_bw_port M.recorder,
       Conn.port_if M.recorder_bw_port (sc_interface.impl b)] := by
  have hl := leaf_channel_net M S h b hstock
  simp only [leaf_channel, bind, Except.bind] at hl
  simp only [run, BindOp.apply, target_peer.to_base]
  split at hl
  · cases hl
  · rename_i n1 h1
    rw [h1]
    simp only
    split at hl
    · cases hl
    · rename_i n2 h2
      rw [h2]
      simp only
      rw [hl]

theorem run_leaf_then_target (W S : axi_rec_target_socket) (h : Nat)
    (hstock : S.base_export = none) (hstockW : W.base_export = none) (hne : W.id ≠ S.id) :
    run [BindOp.target_bind_if S (sc_interface.impl h),
         BindOp.target_bind_target W (target_peer.rec_socket S)] []
      = Except.ok
      [Conn.export_if S.this_export S.recorder,
       Conn.port_if S.recorder_fw_port (sc_interface.impl h),
       Conn.port_port S.recorder_bw_port S.m_port,
       Conn.export_if W.this_export W.recorder,
       Conn.port_if W.recorder_fw_port S.recorder,
       Conn.port_port W.recorder_bw_port W.m_port,
       Conn.port_if S.recorder_bw_port W.recorder] := by
  obtain ⟨sid, sb⟩ := S
  obtain ⟨wid, wb⟩ := W
  simp only at hstock hstockW hne
  subst hstock
  subst hstockW
  have hne2 : ¬ sid = wid := fun e => hne e.symm
  simp [run, BindOp.apply, target_peer.to_base, axi_rec_target_socket.bind_fw_interface_type,
    axi_rec_target_socket.bind_base_type, axi_rec_target_socket.export_call,
    axi_rec_target_socket.get_base_export, axi_rec_target_socket.this_export,
    axi_rec_target_socket.recorder, axi_rec_target_socket.recorder_fw_port,
    axi_rec_target_socket.recorder_bw_port, axi_rec_target_socket.m_port,
    axi_rec_target_socket.to_base, axi_rec_target_socket.get_base_port,
    axi_rec_target_socket.get_base_interface,
    sc_export.bind, sc_export.to_interface, sc_export.get_interface, sc_port.bind,
    sc_port.bind_port, bind, Except.bind, pure, Except.pure, List.findSome?, hne, hne2]

/-! ## The claims -/

/-- C1: every call of `bind(base_target_socket_type&)` that returns has made
exactly four connections and no others, in this order: own port to the
recorder, the recorder's forward port to `fi`, the peer's port to the
recorder, the recorder's backward port to `bi`, where `fi` is what the peer's
`get_base_interface()` returned and `bi` is the socket's own backward
interface; every binding the own port gained goes to the recorder. The call
returns whenever these two interfaces exist. -/
theorem initiator_bind_target_connections (W : axi_rec_initiator_socket)
    (s : tlm_base_target_socket_b) (n : Net) :
    (∀ m, W.bind_base_target_socket_type s n = Except.ok m →
      ∃ fi bi,
        s.get_base_interface (n ++ [Conn.port_if W.get_base_port W.recorder]) = Except.ok fi
        ∧ W.get_base_interface n = Except.ok bi
        ∧ m = n ++ [Conn.port_if W.get_base_port W.recorder,
                    Conn.port_if W.recorder_fw_port fi,
                    Conn.port_if s.get_base_port W.recorder,
                    Conn.port_if W.recorder_bw_port bi]
        ∧ (∀ b, b ∈ W.get_base_port.bind_info m →
            b ∈ W.get_base_port.bind_info n ∨ b = bind_elem.iface W.recorder))
    ∧ (∀ fi bi,
        s.get_base_interface (n ++ [Conn.port_if W.get_base_port W.recorder]) = Except.ok fi →
        W.get_base_interface n = Except.ok bi →
        W.bind_base_target_socket_type s n = Except.ok (n ++
          [Conn.port_if W.get_base_port W.recorder,
           Conn.port_if W.recorder_fw_port fi,
           Conn.port_if s.get_base_port W.recorder,
           Conn.port_if W.recorder_bw_port bi])) := by
  refine ⟨?_, fun fi bi hs hw => initiator_bind_target_ok W s n fi bi hs hw⟩
  intro m hm
  obtain ⟨fi, bi, hs, hw, rfl⟩ := initiator_bind_target_inv W s n m hm
  refine ⟨fi, bi, hs, hw, rfl, ?_⟩
  intro b hb
  rw [bind_info_append] at hb
  rcases List.mem_append.mp hb with hb | hb
  · exact Or.inl hb
  · right
    simp only [sc_port.bind_info, List.filterMap_cons, List.filterMap_nil] at hb
    simp only [axi_rec_initiator_socket.get_base_port,
      axi_rec_initiator_socket.recorder_fw_port,
      axi_rec_initiator_socket.recorder_bw_port] at hb ⊢
    split_ifs at hb <;> simp_all

/-- C1, at the leaf channel: socket 1, bound to its owner's backward interface
`impl 11`, binds the receiving socket 2 that was bound to `impl 10`. -/
theorem initiator_bind_target_connections_witness :
    (⟨1⟩ : axi_rec_initiator_socket).bind_base_target_socket_type
        (⟨2, none⟩ : axi_rec_target_socket).to_base
        [Conn.export_if (sc_export.sock 2) (sc_interface.recorder 2),
         Conn.port_if (sc_port.fw_port 2) (sc_interface.impl 10),
         Conn.port_port (sc_port.bw_port 2) (sc_port.m_port 2),
         Conn.export_if (sc_export.m_export 1) (sc_interface.impl 11)]
      = Except.ok (
        [Conn.export_if (sc_export.sock 2) (sc_interface.recorder 2),
         Conn.port_if (sc_port.fw_port 2) (sc_interface.impl 10),
         Conn.port_port (sc_port.bw_port 2) (sc_port.m_port 2),
         Conn.export_if (sc_export.m_export 1) (sc_interface.impl 11)] ++
        [Conn.port_if (sc_port.sock 1) (sc_interface.recorder 1),
         Conn.port_if (sc_port.fw_port 1) (sc_interface.recorder 2),
         Conn.port_if (sc_port.bw_port 2) (sc_interface.recorder 1),
         Conn.port_if (sc_port.bw_port 1) (sc_interface.impl 11)]) :=
  (initiator_bind_target_connections ⟨1⟩ (⟨2, none⟩ : axi_rec_target_socket).to_base
    [Conn.export_if (sc_export.sock 2) (sc_interface.recorder 2),
     Conn.port_if (sc_port.fw_port 2) (sc_interface.impl 10),
     Conn.port_port (sc_port.bw_port 2) (sc_port.m_port 2),
     Conn.export_if (sc_export.m_export 1) (sc_interface.impl 11)]).2
    (sc_interface.recorder 2) (sc_interface.impl 11) rfl rfl

/-- C4: on a receiving socket whose base export is the socket itself, every
call of `bind(fw_interface_type&)` that returns has made exactly three
connections, in this order: the export to the recorder, the recorder's
forward port to `ifs`, the recorder's backward port to `m_port`; afterwards
the export holds the recorder and not the peer interface `ifs`, so it is not
connected to `ifs` directly. The call returns whenever the export is not
bound yet. -/
theorem target_bind_interface_splice (W : axi_rec_target_socket) (ifs : sc_interface)
    (n : Net) (hthis : W.this_export = W.get_base_export) :
    (∀ m, W.bind_fw_interface_type ifs n = Except.ok m →
      m = n ++ [Conn.export_if W.this_export W.recorder,
                Conn.port_if W.recorder_fw_port ifs,
                Conn.port_port W.recorder_bw_port W.m_port]
      ∧ W.this_export.get_interface m = some W.recorder
      ∧ (ifs ≠ W.recorder → W.this_export.get_interface m ≠ some ifs)
      ∧ (∀ x, Conn.export_if W.this_export x ∈
            [Conn.export_if W.this_export W.recorder,
             Conn.port_if W.recorder_fw_port ifs,
             Conn.port_port W.recorder_bw_port W.m_port] → x = W.recorder))
    ∧ (W.this_export.get_interface n = none →
        W.bind_fw_interface_type ifs n = Except.ok (n ++
          [Conn.export_if W.this_export W.recorder,
           Conn.port_if W.recorder_fw_port ifs,
           Conn.port_port W.recorder_bw_port W.m_port])) := by
  refine ⟨?_, fun hfree => target_bind_interface_ok W ifs n hthis hfree⟩
  intro m hm
  obtain ⟨hfree, rfl⟩ := target_bind_interface_inv_this W ifs n m hthis hm
  have hholds : W.this_export.get_interface (n ++ [Conn.export_if W.this_export W.recorder,
      Conn.port_if W.recorder_fw_port ifs,
      Conn.port_port W.recorder_bw_port W.m_port]) = some W.recorder := by
    have h3 : n ++ [Conn.export_if W.this_export W.recorder,
        Conn.port_if W.recorder_fw_port ifs,
        Conn.port_port W.recorder_bw_port W.m_port]
        = sc_port.bind_port W.recorder_bw_port W.m_port
            (sc_port.bind W.recorder_fw_port ifs
              (n ++ [Conn.export_if W.this_export W.recorder])) := by
      simp [sc_port.bind, sc_port.bind_port]
    rw [h3, get_interface_bind_port, get_interface_port_bind, get_interface_export_bind, hfree]
    simp
  refine ⟨rfl, hholds, ?_, ?_⟩
  · intro hifs hx
    rw [hholds] at hx
    injection hx with hx
    exact hifs hx.symm
  · intro x hx
    simpa using hx

/-- C4, at a fresh socket 2 bound to the handler `impl 10`. -/
theorem target_bind_interface_splice_witness :
    (⟨2, none⟩ : axi_rec_target_socket).this_export
        = (⟨2, none⟩ : axi_rec_target_socket).get_base_export
    ∧ (⟨2, none⟩ : axi_rec_target_socket).bind_fw_interface_type (sc_interface.impl 10) []
        = Except.ok ([] ++ [Conn.export_if (sc_export.sock 2) (sc_interface.recorder 2),
                     Conn.port_if (sc_port.fw_port 2) (sc_interface.impl 10),
                     Conn.port_port (sc_port.bw_port 2) (sc_port.m_port 2)]) :=
  ⟨rfl, (target_bind_interface_splice ⟨2, none⟩ (sc_interface.impl 10) [] rfl).2 rfl⟩

/-- C5: on a receiving socket whose base export `exp` is another object,
`bind(fw_interface_type&)` is the single call `exp.bind(ifs)`. Whenever it
returns, the one connection made is `exp` to `ifs`; the recorder's forward
port, its backward port, `m_port` and the socket's own export keep what they
had; the only interface a new connection leads to is the supplied `ifs`, so,
`ifs` being a peer and not the socket's own recorder, no new connection leads
to the recorder. The call returns whenever `exp` is not bound yet. -/
theorem target_bind_interface_delegated (W : axi_rec_target_socket) (ifs : sc_interface)
    (n : Net) (hother : W.this_export ≠ W.get_base_export) :
    W.bind_fw_interface_type ifs n = sc_export.bind W.get_base_export ifs n
    ∧ (∀ m, W.bind_fw_interface_type ifs n = Except.ok m →
        m = n ++ [Conn.export_if W.get_base_export ifs]
        ∧ W.recorder_fw_port.bind_info m = W.recorder_fw_port.bind_info n
        ∧ W.recorder_bw_port.bind_info m = W.recorder_bw_port.bind_info n
        ∧ W.m_port.bind_info m = W.m_port.bind_info n
        ∧ (∀ p : sc_port, p.bind_info m = p.bind_info n)
        ∧ W.this_export.get_interface m = W.this_export.get_interface n
        ∧ (∀ c, c ∈ [Conn.export_if W.get_base_export ifs] →
            (∀ e i, c = Conn.export_if e i → e = W.get_base_export ∧ i = ifs)
            ∧ (∀ q i, c ≠ Conn.port_if q i)
            ∧ (∀ q r, c ≠ Conn.port_port q r))
        ∧ (ifs ≠ W.recorder → ∀ c, c ∈ [Conn.export_if W.get_base_export ifs] →
            (∀ e, c ≠ Conn.export_if e W.recorder)
            ∧ (∀ q, c ≠ Conn.port_if q W.recorder)))
    ∧ (W.get_base_export.get_interface n = none →
        W.bind_fw_interface_type ifs n
          = Except.ok (n ++ [Conn.export_if W.get_base_export ifs])) := by
  have hdef : W.bind_fw_interface_type ifs n = sc_export.bind W.get_base_export ifs n := by
    simp [axi_rec_target_socket.bind_fw_interface_type, hother]
  refine ⟨hdef, ?_, ?_⟩
  · intro m hm
    rw [hdef] at hm
    obtain ⟨_, rfl⟩ := sc_export_bind_inv _ _ _ _ hm
    refine ⟨rfl, bind_info_export_bind _ _ _ _, bind_info_export_bind _ _ _ _,
      bind_info_export_bind _ _ _ _, fun p => bind_info_export_bind _ _ _ _, ?_, ?_, ?_⟩
    · rw [get_interface_export_bind]
      have hne : ¬ W.get_base_export = W.this_export := fun h => hother h.symm
      simp [hne]
    · intro c hc
      simp only [List.mem_singleton] at hc
      subst hc
      refine ⟨?_, ?_, ?_⟩
      · intro e i h
        injection h with h1 h2
        exact ⟨h1.symm, h2.symm⟩
      · intro q i h
        cases h
      · intro q r h
        cases h
    · intro hifs c hc
      simp only [List.mem_singleton] at hc
      subst hc
      constructor
      · intro e h
        injection h with _ h2
        exact hifs h2
      · intro q h
        cases h
  · intro hfree
    rw [hdef, sc_export_bind_ok _ _ _ hfree]

/-- C5, at socket 2 whose base export is overridden to be the plain export
`other 7`, bound to the handler `impl 10`. -/
theorem target_bind_interface_delegated_witness :
    (⟨2, some 7⟩ : axi_rec_target_socket).this_export
        ≠ (⟨2, some 7⟩ : axi_rec_target_socket).get_base_export
    ∧ (⟨2, some 7⟩ : axi_rec_target_socket).bind_fw_interface_type (sc_interface.impl 10) []
        = Except.ok [Conn.export_if (sc_export.other 7) (sc_interface.impl 10)] :=
  ⟨by decide,
   (target_bind_interface_delegated ⟨2, some 7⟩ (sc_interface.impl 10) [] (by decide)).2.2 rfl⟩

/-- C6: every call of `bind(bw_interface_type&)` of an originating socket that
returns has made exactly one connection, the backward export to `ifs`, and
changed nothing else: the own forward port and the recorder's two ports (as
every port) keep their bindings and every other export keeps its interface.
The call returns whenever the backward export is not bound yet. -/
theorem initiator_bind_interface_direct (W : axi_rec_initiator_socket) (ifs : sc_interface)
    (n : Net) :
    (∀ m, W.bind_bw_interface_type ifs n = Except.ok m →
      m = n ++ [Conn.export_if W.get_base_export ifs]
      ∧ W.get_base_port.bind_info m = W.get_base_port.bind_info n
      ∧ W.recorder_fw_port.bind_info m = W.recorder_fw_port.bind_info n
      ∧ W.recorder_bw_port.bind_info m = W.recorder_bw_port.bind_info n
      ∧ (∀ p : sc_port, p.bind_info m = p.bind_info n)
      ∧ (∀ e : sc_export, e ≠ W.get_base_export → e.get_interface m = e.get_interface n))
    ∧ (W.get_base_export.get_interface n = none →
        W.bind_bw_interface_type ifs n
          = Except.ok (n ++ [Conn.export_if W.get_base_export ifs])) := by
  refine ⟨?_, fun hfree => sc_export_bind_ok _ _ _ hfree⟩
  intro m hm
  obtain ⟨_, rfl⟩ := sc_export_bind_inv _ _ _ _ hm
  refine ⟨rfl, bind_info_export_bind _ _ _ _,
    bind_info_export_bind _ _ _ _, bind_info_export_bind _ _ _ _,
    fun p => bind_info_export_bind _ _ _ _, ?_⟩
  intro e he
  rw [get_interface_export_bind]
  have hne : ¬ W.get_base_export = e := fun h => he h.symm
  simp [hne]

/-- C6, at a fresh socket 1 bound to the backward interface `impl 11`. -/
theorem initiator_bind_interface_direct_witness :
    (⟨1⟩ : axi_rec_initiator_socket).bind_bw_interface_type (sc_interface.impl 11) []
      = Except.ok ([] ++ [Conn.export_if (sc_export.m_export 1) (sc_interface.impl 11)]) :=
  (initiator_bind_interface_direct ⟨1⟩ (sc_interface.impl 11) []).2 rfl

/-- C7: both overrides of `get_base_port()` of a receiving socket return the
recorder's backward port, which is not the socket's `m_port`, and
`operator->` returns the recorder; the two accessors agree. None of them
reads the connections, so this holds before and after any bind, and the
socket seen through its base class gives the recorder's backward port too. -/
theorem target_port_accessor_is_recorder_port (W : axi_rec_target_socket) :
    W.get_base_port = sc_port.bw_port W.id
    ∧ W.get_base_port_const = sc_port.bw_port W.id
    ∧ W.get_base_port = W.recorder_bw_port
    ∧ W.get_base_port_const = W.recorder_bw_port
    ∧ W.get_base_port ≠ W.m_port
    ∧ W.get_base_port_const ≠ W.m_port
    ∧ W.get_base_port = W.get_base_port_const
    ∧ W.operator_arrow = W.recorder
    ∧ W.operator_arrow = sc_interface.recorder W.id
    ∧ W.to_base.get_base_port = W.recorder_bw_port := by
  refine ⟨rfl, rfl, rfl, rfl, ?_, ?_, rfl, rfl, rfl, rfl⟩
  · simp [axi_rec_target_socket.get_base_port, axi_rec_target_socket.recorder_bw_port,
      axi_rec_target_socket.m_port]
  · simp [axi_rec_target_socket.get_base_port_const, axi_rec_target_socket.recorder_bw_port,
      axi_rec_target_socket.m_port]

/-- C8: on a receiving socket whose base export is the socket itself, with a
peer whose export holds the interface `i`, every call of `bind(base_type&)`
that returns has first done what `bind(fw_interface_type&)` does with `i`
(the export to the recorder, the recorder's forward port to `i`, the
recorder's backward port to `m_port`) and then connected the peer's port to
the recorder: exactly these four connections, in this order. The call
returns whenever the socket's export is not bound yet. -/
theorem target_bind_hierarchical_connections (W : axi_rec_target_socket)
    (s : tlm_base_target_socket_b) (n : Net) (i : sc_interface)
    (hthis : W.this_export = W.get_base_export)
    (hs : s.get_base_export.get_interface n = some i) :
    (∀ m, W.bind_base_type s n = Except.ok m →
      ∃ m1, W.bind_fw_interface_type i n = Except.ok m1
        ∧ m1 = n ++ [Conn.export_if W.this_export W.recorder,
                     Conn.port_if W.recorder_fw_port i,
                     Conn.port_port W.recorder_bw_port W.m_port]
        ∧ m = m1 ++ [Conn.port_if s.get_base_port W.recorder]
        ∧ m = n ++ [Conn.export_if W.this_export W.recorder,
                    Conn.port_if W.recorder_fw_port i,
                    Conn.port_port W.recorder_bw_port W.m_port,
                    Conn.port_if s.get_base_port W.recorder])
    ∧ (W.this_export.get_interface n = none →
        W.bind_base_type s n = Except.ok (n ++
          [Conn.export_if W.this_export W.recorder,
           Conn.port_if W.recorder_fw_port i,
           Conn.port_port W.recorder_bw_port W.m_port,
           Conn.port_if s.get_base_port W.recorder])) := by
  have hcall : W.bind_base_type s n
      = (W.bind_fw_interface_type i n).bind
          (fun n1 => Except.ok (n1 ++ [Conn.port_if s.get_base_port W.recorder])) := by
    simp only [axi_rec_target_socket.bind_base_type, to_interface_ok _ _ _ hs,
      axi_rec_target_socket.export_call, ← hthis, if_true, bind, Except.bind, pure,
      Except.pure, sc_port.bind]
  constructor
  · intro m hm
    rw [hcall] at hm
    cases hleaf : W.bind_fw_interface_type i n with
    | error e => simp [hleaf, Except.bind] at hm
    | ok m1 =>
      simp only [hleaf, Except.bind] at hm
      injection hm with hm
      subst hm
      obtain ⟨_, rfl⟩ := target_bind_interface_inv_this W i n m1 hthis hleaf
      exact ⟨_, rfl, rfl, rfl, by simp⟩
  · intro hfree
    rw [hcall, target_bind_interface_ok W i n hthis hfree]
    simp [Except.bind]

/-- C8, at a fresh socket 3 bound hierarchically to the receiving socket 2
that was bound to the handler `impl 10`. -/
theorem target_bind_hierarchical_connections_witness :
    (⟨3, none⟩ : axi_rec_target_socket).bind_base_type
        (⟨2, none⟩ : axi_rec_target_socket).to_base
        [Conn.export_if (sc_export.sock 2) (sc_interface.recorder 2),
         Conn.port_if (sc_port.fw_port 2) (sc_interface.impl 10),
         Conn.port_port (sc_port.bw_port 2) (sc_port.m_port 2)]
      = Except.ok ([Conn.export_if (sc_export.sock 2) (sc_interface.recorder 2),
         Conn.port_if (sc_port.fw_port 2) (sc_interface.impl 10),
         Conn.port_port (sc_port.bw_port 2) (sc_port.m_port 2)] ++
        [Conn.export_if (sc_export.sock 3) (sc_interface.recorder 3),
         Conn.port_if (sc_port.fw_port 3) (sc_interface.recorder 2),
         Conn.port_port (sc_port.bw_port 3) (sc_port.m_port 3),
         Conn.port_if (sc_port.bw_port 2) (sc_interface.recorder 3)]) :=
  (target_bind_hierarchical_connections ⟨3, none⟩ (⟨2, none⟩ : axi_rec_target_socket).to_base
    [Conn.export_if (sc_export.sock 2) (sc_interface.recorder 2),
     Conn.port_if (sc_port.fw_port 2) (sc_interface.impl 10),
     Conn.port_port (sc_port.bw_port 2) (sc_port.m_port 2)]
    (sc_interface.recorder 2) rfl rfl).2 rfl

/-- C9: every call of `bind(base_type&)` of an originating socket that returns
has made exactly four connections, in this order: own port to the recorder,
the recorder's forward port to the peer's port, the peer's backward export to
the recorder, the recorder's backward port to the own backward export, that
is to the interface `bi` this export holds (a port is bound to an export
through the interface the export holds). Afterwards the own port has gained
the recorder only and the peer's export holds the recorder. The call returns
whenever the own export holds an interface and the peer's export is not bound
yet. -/
theorem initiator_bind_hierarchical_connections (W : axi_rec_initiator_socket)
    (s : tlm_base_initiator_socket_b) (n : Net) :
    (∀ m, W.bind_base_type s n = Except.ok m →
      ∃ bi, m = n ++ [Conn.port_if W.get_base_port W.recorder,
                      Conn.port_port W.recorder_fw_port s.get_base_port,
                      Conn.export_if s.get_base_export W.recorder,
                      Conn.port_if W.recorder_bw_port bi]
        ∧ W.get_base_export.get_interface m = some bi
        ∧ s.get_base_export.get_interface m = some W.recorder
        ∧ W.get_base_port.bind_info m
            = W.get_base_port.bind_info n ++ [bind_elem.iface W.recorder])
    ∧ (∀ bi, W.get_base_export.get_interface n = some bi →
        s.get_base_export.get_interface n = none →
        W.bind_base_type s n = Except.ok (n ++
          [Conn.port_if W.get_base_port W.recorder,
           Conn.port_port W.recorder_fw_port s.get_base_port,
           Conn.export_if s.get_base_export W.recorder,
           Conn.port_if W.recorder_bw_port bi])) := by
  constructor
  · intro m hm
    obtain ⟨bi, hs, hw, rfl⟩ := initiator_bind_hierarchical_inv W s n m hm
    have hm : n ++ [Conn.port_if W.get_base_port W.recorder,
         Conn.port_port W.recorder_fw_port s.get_base_port,
         Conn.export_if s.get_base_export W.recorder,
         Conn.port_if W.recorder_bw_port bi]
        = sc_port.bind W.recorder_bw_port bi
            (sc_port.bind_port W.recorder_fw_port s.get_base_port
              (sc_port.bind W.get_base_port W.recorder n) ++
              [Conn.export_if s.get_base_export W.recorder]) := by
      simp [sc_port.bind, sc_port.bind_port]
    refine ⟨bi, rfl, ?_, ?_, ?_⟩
    · rw [hm, get_interface_port_bind, get_interface_export_bind, get_interface_bind_port,
        get_interface_port_bind]
      rw [get_interface_export_bind] at hw
      exact hw
    · rw [hm, get_interface_port_bind, get_interface_export_bind, get_interface_bind_port,
        get_interface_port_bind, hs]
      simp
    · rw [hm, bind_info_port_bind, bind_info_export_bind, bind_info_bind_port,
        bind_info_port_bind]
      simp [axi_rec_initiator_socket.get_base_port, axi_rec_initiator_socket.recorder_fw_port,
        axi_rec_initiator_socket.recorder_bw_port]
  · intro bi hw hs
    refine initiator_bind_hierarchical_ok W s n bi hs ?_
    rw [get_interface_export_bind, hw]
    simp

/-- C9, at socket 1, bound to its owner's backward interface `impl 11`, bound
hierarchically to a plain originating socket with port and export `other 5`. -/
theorem initiator_bind_hierarchical_connections_witness :
    (⟨1⟩ : axi_rec_initiator_socket).bind_base_type
        (initiator_peer.plain 5).to_base
        [Conn.export_if (sc_export.m_export 1) (sc_interface.impl 11)]
      = Except.ok ([Conn.export_if (sc_export.m_export 1) (sc_interface.impl 11)] ++
          [Conn.port_if (sc_port.sock 1) (sc_interface.recorder 1),
           Conn.port_port (sc_port.fw_port 1) (sc_port.other 5),
           Conn.export_if (sc_export.other 5) (sc_interface.recorder 1),
           Conn.port_if (sc_port.bw_port 1) (sc_interface.impl 11)]) :=
  (initiator_bind_hierarchical_connections ⟨1⟩ (initiator_peer.plain 5).to_base
    [Conn.export_if (sc_export.m_export 1) (sc_interface.impl 11)]).2
    (sc_interface.impl 11) rfl rfl

/-- C2, as stated, fails: in the leaf channel of the originating socket 1 and
the receiving socket 2 (handler `impl 10`), the forward call with payload
`addr = 0x1000, len = 4` reaches the handler once and unchanged, but two
forward events are recorded, one by each socket's recorder; no hop bound
gives a log with exactly one recorded event. -/
theorem leaf_channel_forward_one_event_counterexample :
    ∃ n, leaf_channel ⟨1⟩ ⟨2, none⟩ 10 11 = Except.ok n
      ∧ (⟨1⟩ : axi_rec_initiator_socket).fw_call n (Request.mk 0x1000 4) 3
          = some ⟨[⟨1, Dir.fw, Request.mk 0x1000 4⟩, ⟨2, Dir.fw, Request.mk 0x1000 4⟩],
                  [⟨10, Dir.fw, Request.mk 0x1000 4⟩]⟩
      ∧ ¬ (∃ fuel log, (⟨1⟩ : axi_rec_initiator_socket).fw_call n (Request.mk 0x1000 4) fuel
            = some log ∧ log.recorded.length = 1) := by
  obtain ⟨n, hn⟩ : ∃ n, leaf_channel ⟨1⟩ ⟨2, none⟩ 10 11 = Except.ok n :=
    ⟨_, leaf_channel_net ⟨1⟩ ⟨2, none⟩ 10 11 rfl⟩
  have hcall := leaf_channel_fw_call ⟨1⟩ ⟨2, none⟩ 10 11 (Request.mk 0x1000 4) n rfl
    (by decide) hn
  refine ⟨n, hn, ?_, ?_⟩
  · rw [hcall 3]
    rfl
  · rintro ⟨fuel, log, hlog, hlen⟩
    rw [hcall fuel] at hlog
    split at hlog
    · injection hlog with hlog
      subst hlog
      simp at hlen
    · cases hlog

/-- C2, amended: in the leaf channel of an originating socket `M` and a
receiving socket `S` (distinct objects, `S` with the inherited base export),
a forward call issued by the owner of `M` with any payload reaches the
handler of the owner of `S` exactly once, unchanged, and produces exactly two
recorded forward events, the first by the recorder of `M` and the second by
the recorder of `S`: both recorders lie on the forward path. Every hop bound
of at least three gives this result and no hop bound gives another. -/
theorem leaf_channel_forward_two_events {α : Type} (M : axi_rec_initiator_socket)
    (S : axi_rec_target_socket) (h b : Nat) (x : α) (fuel : Nat)
    (hstock : S.base_export = none) (hne : M.id ≠ S.id) (hfuel : 3 ≤ fuel) :
    ∃ n, leaf_channel M S h b = Except.ok n
      ∧ M.fw_call n x fuel
          = some ⟨[⟨M.id, Dir.fw, x⟩, ⟨S.id, Dir.fw, x⟩], [⟨h, Dir.fw, x⟩]⟩
      ∧ (∀ f log, M.fw_call n x f = some log →
          log = ⟨[⟨M.id, Dir.fw, x⟩, ⟨S.id, Dir.fw, x⟩], [⟨h, Dir.fw, x⟩]⟩) := by
  obtain ⟨n, hn⟩ : ∃ n, leaf_channel M S h b = Except.ok n :=
    ⟨_, leaf_channel_net M S h b hstock⟩
  have hcall := leaf_channel_fw_call M S h b x n hstock hne hn
  refine ⟨n, hn, ?_, ?_⟩
  · rw [hcall fuel, if_pos hfuel]
  · intro f log hlog
    rw [hcall f] at hlog
    split at hlog
    · injection hlog with hlog
      exact hlog.symm
    · cases hlog

/-- C2, amended, at sockets 1 and 2 with the payload `addr = 0x1000, len = 4`. -/
theorem leaf_channel_forward_two_events_witness :
    ∃ n, leaf_channel ⟨1⟩ ⟨2, none⟩ 10 11 = Except.ok n
      ∧ (⟨1⟩ : axi_rec_initiator_socket).fw_call n (Request.mk 0x1000 4) 3
          = some ⟨[⟨1, Dir.fw, Request.mk 0x1000 4⟩, ⟨2, Dir.fw, Request.mk 0x1000 4⟩],
                  [⟨10, Dir.fw, Request.mk 0x1000 4⟩]⟩
      ∧ (∀ f log, (⟨1⟩ : axi_rec_initiator_socket).fw_call n (Request.mk 0x1000 4) f
            = some log →
          log = ⟨[⟨1, Dir.fw, Request.mk 0x1000 4⟩, ⟨2, Dir.fw, Request.mk 0x1000 4⟩],
                  [⟨10, Dir.fw, Request.mk 0x1000 4⟩]⟩) :=
  leaf_channel_forward_two_events ⟨1⟩ ⟨2, none⟩ 10 11 (Request.mk 0x1000 4) 3 rfl
    (by decide) (by decide)

/-- C3, as stated, fails: in the leaf channel of the originating socket 1
(backward interface `impl 11`) and the receiving socket 2, the backward call
with payload `OK` made through `operator->` of socket 2 reaches `impl 11`
once and unchanged, but two backward events are recorded, one by each
socket's recorder; no hop bound gives a log with exactly one recorded event. -/
theorem leaf_channel_backward_one_event_counterexample :
    ∃ n, leaf_channel ⟨1⟩ ⟨2, none⟩ 10 11 = Except.ok n
      ∧ (⟨2, none⟩ : axi_rec_target_socket).bw_call n Response.OK 3
          = some ⟨[⟨2, Dir.bw, Response.OK⟩, ⟨1, Dir.bw, Response.OK⟩],
                  [⟨11, Dir.bw, Response.OK⟩]⟩
      ∧ ¬ (∃ fuel log, (⟨2, none⟩ : axi_rec_target_socket).bw_call n Response.OK fuel
            = some log ∧ log.recorded.length = 1) := by
  obtain ⟨n, hn⟩ : ∃ n, leaf_channel ⟨1⟩ ⟨2, none⟩ 10 11 = Except.ok n :=
    ⟨_, leaf_channel_net ⟨1⟩ ⟨2, none⟩ 10 11 rfl⟩
  have hcall := leaf_channel_bw_call ⟨1⟩ ⟨2, none⟩ 10 11 Response.OK n rfl (by decide) hn
  refine ⟨n, hn, ?_, ?_⟩
  · rw [hcall 3]
    rfl
  · rintro ⟨fuel, log, hlog, hlen⟩
    rw [hcall fuel] at hlog
    split at hlog
    · injection hlog with hlog
      subst hlog
      simp at hlen
    · cases hlog

/-- C3, amended: in the leaf channel of an originating socket `M` and a
receiving socket `S` (distinct objects, `S` with the inherited base export),
a backward call issued by the owner of `S` through `operator->` with any
payload reaches the backward interface of the owner of `M` exactly once,
unchanged, and produces exactly two recorded backward events, the first by
the recorder of `S` and the second by the recorder of `M`. Every hop bound of
at least three gives this result and no hop bound gives another. -/
theorem leaf_channel_backward_two_events {α : Type} (M : axi_rec_initiator_socket)
    (S : axi_rec_target_socket) (h b : Nat) (x : α) (fuel : Nat)
    (hstock : S.base_export = none) (hne : M.id ≠ S.id) (hfuel : 3 ≤ fuel) :
    ∃ n, leaf_channel M S h b = Except.ok n
      ∧ S.bw_call n x fuel
          = some ⟨[⟨S.id, Dir.bw, x⟩, ⟨M.id, Dir.bw, x⟩], [⟨b, Dir.bw, x⟩]⟩
      ∧ (∀ f log, S.bw_call n x f = some log →
          log = ⟨[⟨S.id, Dir.bw, x⟩, ⟨M.id, Dir.bw, x⟩], [⟨b, Dir.bw, x⟩]⟩) := by
  obtain ⟨n, hn⟩ : ∃ n, leaf_channel M S h b = Except.ok n :=
    ⟨_, leaf_channel_net M S h b hstock⟩
  have hcall := leaf_channel_bw_call M S h b x n hstock hne hn
  refine ⟨n, hn, ?_, ?_⟩
  · rw [hcall fuel, if_pos hfuel]
  · intro f log hlog
    rw [hcall f] at hlog
    split at hlog
    · injection hlog with hlog
      exact hlog.symm
    · cases hlog

/-- C3, amended, at sockets 1 and 2 with the payload `OK`. -/
theorem leaf_channel_backward_two_events_witness :
    ∃ n, leaf_channel ⟨1⟩ ⟨2, none⟩ 10 11 = Except.ok n
      ∧ (⟨2, none⟩ : axi_rec_target_socket).bw_call n Response.OK 3
          = some ⟨[⟨2, Dir.bw, Response.OK⟩, ⟨1, Dir.bw, Response.OK⟩],
                  [⟨11, Dir.bw, Response.OK⟩]⟩
      ∧ (∀ f log, (⟨2, none⟩ : axi_rec_target_socket).bw_call n Response.OK f = some log →
          log = ⟨[⟨2, Dir.bw, Response.OK⟩, ⟨1, Dir.bw, Response.OK⟩],
                  [⟨11, Dir.bw, Response.OK⟩]⟩) :=
  leaf_channel_backward_two_events ⟨1⟩ ⟨2, none⟩ 10 11 Response.OK 3 rfl
    (by decide) (by decide)

/-- C10: after any sequence of bind calls of the two recording sockets that
starts from no connection, no connection starts from the `m_port` of a
receiving socket, the only connection mentioning `m_port k` is the recorder's
backward port `bw_port k` bound to it, and `m_port k` has no binding. After
the leaf bind of `S` followed by the bind of an originating socket `M` to
`S`, or by the hierarchical bind of another receiving socket `W` to `S`, the
backward port of the recorder of `S` has exactly two bindings, `m_port` and
then the peer's recorder, while `m_port` has none. -/
theorem m_port_never_bound (ops : List BindOp) (n : Net)
    (hrun : run ops [] = Except.ok n) :
    (∀ c, c ∈ n → ∀ k, c.source_port ≠ some (sc_port.m_port k))
    ∧ (∀ c, c ∈ n → ∀ k, sc_port.m_port k ∈ c.ports →
        c = Conn.port_port (sc_port.bw_port k) (sc_port.m_port k))
    ∧ (∀ k, (sc_port.m_port k).bind_info n = [])
    ∧ (∀ (M : axi_rec_initiator_socket) (S : axi_rec_target_socket) (h b : Nat),
        S.base_export = none → M.id ≠ S.id →
        ∃ m, run [BindOp.target_bind_if S (sc_interface.impl h),
                  BindOp.initiator_bind_if M (sc_interface.impl b),
                  BindOp.initiator_bind_target M (target_peer.rec_socket S)] []
              = Except.ok m
          ∧ S.recorder_bw_port.bind_info m
              = [bind_elem.parent S.m_port, bind_elem.iface M.recorder]
          ∧ S.m_port.bind_info m = [])
    ∧ (∀ (W S : axi_rec_target_socket) (h : Nat),
        S.base_export = none → W.base_export = none → W.id ≠ S.id →
        ∃ m, run [BindOp.target_bind_if S (sc_interface.impl h),
                  BindOp.target_bind_target W (target_peer.rec_socket S)] []
              = Except.ok m
          ∧ S.recorder_bw_port.bind_info m
              = [bind_elem.parent S.m_port, bind_elem.iface W.recorder]
          ∧ S.m_port.bind_info m = []) := by
  have hinv : ∀ ops n, run ops [] = Except.ok n → ∀ c, c ∈ n → ∀ k,
      sc_port.m_port k ∈ c.ports →
        c = Conn.port_port (sc_port.bw_port k) (sc_port.m_port k) := by
    intro ops n h
    exact run_keeps_m_port ops [] n h (fun c hc => absurd hc (List.not_mem_nil c))
  have hsrc : ∀ ops n, run ops [] = Except.ok n → ∀ c, c ∈ n → ∀ k,
      c.source_port ≠ some (sc_port.m_port k) := by
    intro ops n h c hc k hs
    have hmem : sc_port.m_port k ∈ c.ports := by
      cases c <;> simp [Conn.source_port, Conn.ports] at hs ⊢
      · exact hs.symm
      · exact Or.inl hs.symm
    have hcc := hinv ops n h c hc k hmem
    subst hcc
    simp [Conn.source_port] at hs
  have hnil : ∀ ops n, run ops [] = Except.ok n → ∀ k,
      (sc_port.m_port k).bind_info n = [] := by
    intro ops n h k
    exact bind_info_nil_of_no_source _ _ (fun c hc => hsrc ops n h c hc k)
  refine ⟨hsrc ops n hrun, hinv ops n hrun, hnil ops n hrun, ?_, ?_⟩
  · intro M S h b hstock hne
    have hr := run_leaf_then_initiator M S h b hstock
    refine ⟨_, hr, ?_, hnil _ _ hr S.id⟩
    have hne2 : ¬ S.id = M.id := fun e => hne e.symm
    simp [sc_port.bind_info, axi_rec_target_socket.recorder_bw_port,
      axi_rec_target_socket.recorder_fw_port, axi_rec_target_socket.m_port,
      axi_rec_initiator_socket.get_base_port, axi_rec_initiator_socket.recorder_fw_port,
      axi_rec_initiator_socket.recorder_bw_port, hne, hne2]
  · intro W S h hstock hstockW hne
    have hr := run_leaf_then_target W S h hstock hstockW hne
    refine ⟨_, hr, ?_, hnil _ _ hr S.id⟩
    have hne2 : ¬ S.id = W.id := fun e => hne e.symm
    simp [sc_port.bind_info, axi_rec_target_socket.recorder_bw_port,
      axi_rec_target_socket.recorder_fw_port, axi_rec_target_socket.m_port, hne, hne2]

/-- C10, at the leaf bind of socket 2 followed by the bind of the originating
socket 1 to it: the run succeeds, no connection starts from an `m_port`, and
no `m_port` has a binding. -/
theorem m_port_never_bound_witness :
    run [BindOp.target_bind_if ⟨2, none⟩ (sc_interface.impl 10),
         BindOp.initiator_bind_if ⟨1⟩ (sc_interface.impl 11),
         BindOp.initiator_bind_target ⟨1⟩ (target_peer.rec_socket ⟨2, none⟩)] []
      = Except.ok
        [Conn.export_if (sc_export.sock 2) (sc_interface.recorder 2),
         Conn.port_if (sc_port.fw_port 2) (sc_interface.impl 10),
         Conn.port_port (sc_port.bw_port 2) (sc_port.m_port 2),
         Conn.export_if (sc_export.m_export 1) (sc_interface.impl 11),
         Conn.port_if (sc_port.sock 1) (sc_interface.recorder 1),
         Conn.port_if (sc_port.fw_port 1) (sc_interface.recorder 2),
         Conn.port_if (sc_port.bw_port 2) (sc_interface.recorder 1),
         Conn.port_if (sc_port.bw_port 1) (sc_interface.impl 11)]
    ∧ (∀ c, c ∈
        [Conn.export_if (sc_export.sock 2) (sc_interface.recorder 2),
         Conn.port_if (sc_port.fw_port 2) (sc_interface.impl 10),
         Conn.port_port (sc_port.bw_port 2) (sc_port.m_port 2),
         Conn.export_if (sc_export.m_export 1) (sc_interface.impl 11),
         Conn.port_if (sc_port.sock 1) (sc_interface.recorder 1),
         Conn.port_if (sc_port.fw_port 1) (sc_interface.recorder 2),
         Conn.port_if (sc_port.bw_port 2) (sc_interface.recorder 1),
         Conn.port_if (sc_port.bw_port 1) (sc_interface.impl 11)] →
        ∀ k, c.source_port ≠ some (sc_port.m_port k))
    ∧ (∀ k, (sc_port.m_port k).bind_info
        [Conn.export_if (sc_export.sock 2) (sc_interface.recorder 2),
         Conn.port_if (sc_port.fw_port 2) (sc_interface.impl 10),
         Conn.port_port (sc_port.bw_port 2) (sc_port.m_port 2),
         Conn.export_if (sc_export.m_export 1) (sc_interface.impl 11),
         Conn.port_if (sc_port.sock 1) (sc_interface.recorder 1),
         Conn.port_if (sc_port.fw_port 1) (sc_interface.recorder 2),
         Conn.port_if (sc_port.bw_port 2) (sc_interface.recorder 1),
         Conn.port_if (sc_port.bw_port 1) (sc_interface.impl 11)] = []) :=
  ⟨rfl,
   (m_port_never_bound
      [BindOp.target_bind_if ⟨2, none⟩ (sc_interface.impl 10),
       BindOp.initiator_bind_if ⟨1⟩ (sc_interface.impl 11),
       BindOp.initiator_bind_target ⟨1⟩ (target_peer.rec_socket ⟨2, none⟩)] _ rfl).1,
   (m_port_never_bound
      [BindOp.target_bind_if ⟨2, none⟩ (sc_interface.impl 10),
       BindOp.initiator_bind_if ⟨1⟩ (sc_interface.impl 11),
       BindOp.initiator_bind_target ⟨1⟩ (target_peer.rec_socket ⟨2, none⟩)] _ rfl).2.2.1⟩

end scv4axi
